import Mathlib

/-
Verification of the lcd-lcm1602-i2c driver (HD44780 over an I2C 4-bit expander).

The repository contains three variants of the driver:
  * src/sync_lcd.rs  — the blocking driver ("core" model below);
  * src/async_lcd.rs — the suspending driver, line-for-line identical to the
    blocking one in every bus write and byte computation (it only omits the
    1 ms delay after the initial backlight write in init);
  * src/lib.rs       — a legacy snapshot with its own enums and a different
    set_cursor / backlight-byte formula ("legacy" model below).

Machine integers (u8) are embedded as Nat with explicit % 256 where the Rust
code can wrap.  Bus errors are embedded with Except; the bus is an oracle
assigning a result to every write attempt, so that propagation and abort
behaviour can be proved.
-/

namespace Lcd1602

/-! ## Instruction-set constants

The enum values below come from the crate.  Those carried by src/lib.rs are
taken verbatim from it (DisplayControl, Backlight, Mode.Cmd/Data/
DisplayControl/FunctionSet, Commands.Clear/ReturnHome/ShiftCursor, BitMode).
The module root that declares the extra variants used by sync_lcd.rs and
async_lcd.rs is not part of the sources, so those are modelled from the spec.
-/

namespace DisplayControl

/-- DisplayControl::Off, src/lib.rs line 55. -/
def Off : Nat := 0x00

/-- DisplayControl::CursorBlink, src/lib.rs line 56. -/
def CursorBlink : Nat := 0x01

/-- DisplayControl::CursorOn (spelled CursosOn in lib.rs), src/lib.rs line 57. -/
def CursorOn : Nat := 0x02

/-- DisplayControl::DisplayOn, src/lib.rs line 58. -/
def DisplayOn : Nat := 0x04

end DisplayControl

/-- Backlight enum, src/lib.rs lines 62-65. -/
inductive Backlight where
  | Off
  | On
  deriving DecidableEq

/-- The value of `backlight as u8`: Off = 0x00, On = 0x08 (src/lib.rs lines 63-64). -/
def Backlight.asU8 : Backlight → Nat
  | .Off => 0x00
  | .On => 0x08

/-- Font enum used by sync_lcd.rs and async_lcd.rs.
Modelled from the spec: the function-set font bit of the missing module root;
src/lib.rs line 153 documents the values as 5x8 = 0x00 and 5x10 = 0x4. -/
inductive Font where
  | Font5x8
  | Font5x10
  deriving DecidableEq

/-- The value of `font_mode as u8` (see the Font doc comment). -/
def Font.asU8 : Font → Nat
  | .Font5x8 => 0x00
  | .Font5x10 => 0x04

namespace Mode

/-- Mode::Cmd, src/lib.rs line 70. -/
def Cmd : Nat := 0x00

/-- Mode::Data, src/lib.rs line 71. -/
def Data : Nat := 0x01

/-- Mode::DisplayControl, src/lib.rs line 72. -/
def DisplayCtrl : Nat := 0x08

/-- Mode::FunctionSet, src/lib.rs line 73. -/
def FunctionSet : Nat := 0x20

/-- Mode::EntrySet.  Modelled from the spec: the entry-mode-set base code of
the HD44780 instruction set (spec section 4.2); src/lib.rs line 171 sends the
entry-mode instruction as the literal byte 0x04. -/
def EntrySet : Nat := 0x04

/-- Mode::DDRAMAddr.  Modelled from the spec: the set-DDRAM-address base code,
bit 7 set (spec sections 4.2 and 8 give 0x80 explicitly). -/
def DDRAMAddr : Nat := 0x80

end Mode

namespace BitMode

/-- BitMode::Bit4, src/lib.rs line 83. -/
def Bit4 : Nat := 0x0 <<< 4

/-- BitMode::Bit8, src/lib.rs line 84. -/
def Bit8 : Nat := 0x1 <<< 4

end BitMode

namespace Commands

/-- Commands::Clear, src/lib.rs line 77. -/
def Clear : Nat := 0x01

/-- Commands::ReturnHome, src/lib.rs line 78. -/
def ReturnHome : Nat := 0x02

/-- Commands::ShiftCursor, src/lib.rs line 79 (16 | 4). -/
def ShiftCursor : Nat := 16 ||| 4

end Commands

namespace CursorMoveDir

/-- CursorMoveDir::Left.  Modelled from the spec: the cursor-move-direction bit
of the HD44780 entry-mode instruction; the spec (section 4.2) says the driver
always configures left-to-right entry, which on this instruction set is the
increment bit 0x02 of the entry-mode byte. -/
def Left : Nat := 0x02

end CursorMoveDir

namespace DisplayShift

/-- DisplayShift::Decrement.  Modelled from the spec: the
display-shift-on-write bit of the entry-mode instruction left clear, i.e. no
auto-shift on write (spec section 4.2). -/
def Decrement : Nat := 0x00

end DisplayShift

/-! ## Driver state

Mirrors the fields of the Lcd structs.  The I2C handle and delay handle are
replaced by the explicit bus/trace models below. -/

/-- The soft state of the sync/async driver (sync_lcd.rs lines 10-23,
async_lcd.rs lines 6-19). -/
structure LcdState where
  address : Nat
  rows : Nat
  backlight_state : Backlight
  cursor_on : Bool
  cursor_blink : Bool
  font_mode : Font
  deriving DecidableEq

/-- The soft state of the legacy driver (src/lib.rs lines 40-52): no font
field. -/
structure LegacyState where
  address : Nat
  rows : Nat
  backlight_state : Backlight
  cursor_on : Bool
  cursor_blink : Bool
  deriving DecidableEq

/-! ## Pure byte computations shared by the variants -/

/-- `data & 0xf0` — the high-nibble frame bits of send
(sync_lcd.rs line 128, lib.rs line 191). -/
def send_high (data : Nat) : Nat := data &&& 0xf0

/-- `(data << 4) & 0xf0` in u8 arithmetic — the low-nibble frame bits of send
(sync_lcd.rs line 129, lib.rs line 192). -/
def send_low (data : Nat) : Nat := ((data <<< 4) % 256) &&& 0xf0

/-- The two write4bits arguments produced by one send(data, mode) call, in
order: high nibble first, then low nibble (sync_lcd.rs lines 130-131,
async_lcd.rs lines 124-125, lib.rs lines 193-194). -/
def sendTransfers (data rs : Nat) : List Nat :=
  [send_high data ||| rs, send_low data ||| rs]

/-- Reassemble a byte from the nibble bits carried by the two transfers of a
send: the high four bits of the first transfer, then the high four bits of the
second transfer shifted down. -/
def reassemble (t0 t1 : Nat) : Nat := (t0 &&& 0xf0) ||| ((t1 &&& 0xf0) >>> 4)

/-- The `shift` computed by set_cursor in sync_lcd.rs line 171 /
async_lcd.rs line 165: `row * 0x40 + col` in u8 arithmetic. -/
def set_cursor_shift (row col : Nat) : Nat := (row * 0x40 + col) % 256

/-- The `shift` computed by the legacy set_cursor in lib.rs line 235:
`row * 40 + col` (decimal 40) in u8 arithmetic. -/
def legacy_set_cursor_shift (row col : Nat) : Nat := (row * 40 + col) % 256

/-- The display-control payload recomputed by update_display_control
(sync_lcd.rs lines 178-187; the same two if-chains appear in lib.rs lines
157-166 for init). -/
def display_ctrl (cursorOn cursorBlink : Bool) : Nat :=
  let d := if cursorOn then DisplayControl.DisplayOn ||| DisplayControl.CursorOn
           else DisplayControl.DisplayOn
  if cursorBlink then d ||| DisplayControl.CursorBlink else d

/-- The `lines` bit of update_function_set (sync_lcd.rs line 206,
lib.rs line 150): 0x00 for zero rows, 0x08 otherwise. -/
def lines_bit (rows : Nat) : Nat := if rows = 0 then 0x00 else 0x08

/-! ## Act-level trace model

One `Act` per protocol action of the source: a raw expander write (the
backlight routine), one write4bits call (= one nibble transfer, whose
three-frame expansion lives in the effectful model), one send call (= one two-nibble byte
transfer), and the explicit delays. -/

/-- One protocol action performed by a driver method. -/
inductive Act where
  | raw (b : Nat)
  | nib (d : Nat)
  | xfer (d : Nat) (rs : Nat)
  | dms (n : Nat)
  | dus (n : Nat)
  deriving DecidableEq

/-- Actions of the sync/async backlight routine (sync_lcd.rs lines 139-145):
a single raw write of `DisplayControl::Off | backlight`, no delay. -/
def backlightActs (b : Backlight) : List Act :=
  [.raw (DisplayControl.Off ||| b.asU8)]

/-- Actions of send(data, mode): one full byte transfer
(sync_lcd.rs lines 127-133). -/
def sendActs (data rs : Nat) : List Act := [.xfer data rs]

/-- Actions of command(data) = send(data, Mode::Cmd)
(sync_lcd.rs lines 135-137). -/
def commandActs (data : Nat) : List Act := sendActs data Mode.Cmd

/-- Actions of update_function_set (sync_lcd.rs lines 204-212). -/
def update_function_setActs (st : LcdState) : List Act :=
  commandActs (Mode.FunctionSet ||| st.font_mode.asU8 ||| lines_bit st.rows)

/-- Actions of update_display_control (sync_lcd.rs lines 177-189). -/
def update_display_controlActs (st : LcdState) : List Act :=
  commandActs (Mode.DisplayCtrl ||| display_ctrl st.cursor_on st.cursor_blink)

/-- Actions of cursor_blink(blink) (sync_lcd.rs lines 192-195): store the flag
and resend the display-control byte. -/
def cursor_blinkActs (st : LcdState) (blink : Bool) : List Act :=
  update_display_controlActs { st with cursor_blink := blink }

/-- Actions of cursor_on(on) (sync_lcd.rs lines 198-201). -/
def cursor_onActs (st : LcdState) (o : Bool) : List Act :=
  update_display_controlActs { st with cursor_on := o }

/-- Actions of font_mode(mode) (sync_lcd.rs lines 215-218): store the font and
resend the function-set byte. -/
def font_modeActs (st : LcdState) (mode : Font) : List Act :=
  update_function_setActs { st with font_mode := mode }

/-- Actions of return_home (sync_lcd.rs lines 163-167). -/
def return_homeActs : List Act :=
  commandActs Commands.ReturnHome ++ [.dms 2]

/-- Actions of set_cursor(row, col) (sync_lcd.rs lines 170-173): a single
command byte `Mode::DDRAMAddr | shift`. -/
def set_cursorActs (row col : Nat) : List Act :=
  commandActs (Mode.DDRAMAddr ||| set_cursor_shift row col)

/-- Actions of init (sync_lcd.rs lines 76-108), in source order: power-on
delay, backlight write, 1 ms delay, three 8-bit-mode nibble transfers each
followed by 5 ms, one 4-bit-mode nibble transfer, then the full-byte
commands: function set, display control, clear, 2 ms, entry mode, return
home.  (async_lcd.rs lines 72-102 is identical except that it omits the
`.dms 1` after the backlight write.) -/
def initActs (st : LcdState) : List Act :=
  [.dms 80] ++ backlightActs st.backlight_state ++ [.dms 1]
    ++ [.nib (Mode.FunctionSet ||| BitMode.Bit8), .dms 5,
        .nib (Mode.FunctionSet ||| BitMode.Bit8), .dms 5,
        .nib (Mode.FunctionSet ||| BitMode.Bit8), .dms 5]
    ++ [.nib (Mode.FunctionSet ||| BitMode.Bit4)]
    ++ update_function_setActs st
    ++ update_display_controlActs st
    ++ commandActs (Mode.Cmd ||| Commands.Clear)
    ++ [.dms 2]
    ++ commandActs (Mode.EntrySet ||| CursorMoveDir.Left ||| DisplayShift.Decrement)
    ++ return_homeActs

/-! ### Legacy (lib.rs) traces -/

/-- Actions of the legacy backlight routine (lib.rs lines 202-208): a single
raw write of `DisplayControl::DisplayOn | backlight`. -/
def legacy_backlightActs (b : Backlight) : List Act :=
  [.raw (DisplayControl.DisplayOn ||| b.asU8)]

/-- Actions of the legacy return_home (lib.rs lines 226-230). -/
def legacy_return_homeActs : List Act :=
  commandActs Commands.ReturnHome ++ [.dms 2]

/-- Actions of the legacy set_cursor (lib.rs lines 233-240): return home, then
`row * 40 + col` shift-cursor commands. -/
def legacy_set_cursorActs (row col : Nat) : List Act :=
  legacy_return_homeActs
    ++ List.replicate (legacy_set_cursor_shift row col) (Act.xfer Commands.ShiftCursor Mode.Cmd)

/-- Actions of the legacy init (lib.rs lines 132-174), in source order:
power-on delay, three 8-bit-mode nibble transfers each followed by 5 ms, one
4-bit-mode nibble transfer, then the full-byte commands: function set,
display control, clear, entry mode (the literal byte 0x04), and finally the
backlight write. -/
def legacy_initActs (st : LegacyState) : List Act :=
  [.dms 80]
    ++ [.nib (Mode.FunctionSet ||| BitMode.Bit8), .dms 5,
        .nib (Mode.FunctionSet ||| BitMode.Bit8), .dms 5,
        .nib (Mode.FunctionSet ||| BitMode.Bit8), .dms 5]
    ++ [.nib (Mode.FunctionSet ||| BitMode.Bit4)]
    ++ commandActs (Mode.FunctionSet ||| lines_bit st.rows)
    ++ commandActs (Mode.DisplayCtrl ||| display_ctrl st.cursor_on st.cursor_blink)
    ++ commandActs (Mode.Cmd ||| Commands.Clear)
    ++ commandActs 0x04
    ++ legacy_backlightActs st.backlight_state

/-! ### Predicates on acts -/

/-- Is this the single-nibble transfer of the function-set instruction with
the 8-bit-mode flag? -/
def isNib8 : Act → Bool
  | .nib d => d == Mode.FunctionSet ||| BitMode.Bit8
  | _ => false

/-- Is this the single-nibble transfer of the function-set instruction with
the 4-bit-mode flag? -/
def isNib4 : Act → Bool
  | .nib d => d == Mode.FunctionSet ||| BitMode.Bit4
  | _ => false

/-- Is this any single-nibble transfer? -/
def isNib : Act → Bool
  | .nib _ => true
  | _ => false

/-- Is this a full two-nibble byte transfer? -/
def isXfer : Act → Bool
  | .xfer _ _ => true
  | _ => false

/-- Is this a byte transfer of an entry-mode-set instruction (byte in
[0x04, 0x08))? -/
def isEntryXfer : Act → Bool
  | .xfer d _ => 0x04 ≤ d && d < 0x08
  | _ => false

/-- Is this a delay? -/
def isDelay : Act → Bool
  | .dms _ => true
  | .dus _ => true
  | _ => false

/-! ## Effectful model

The bus is an oracle assigning an `Except` result to every write attempt (the
k-th attempt, counting from 0, consults `resp k`).  `attempts` counts write
attempts, `written` logs the bytes of the successful writes.  The `?`
operator of the Rust source is mirrored by `Except` bind; an error carries
the bus state at the failing attempt so abort behaviour is observable. -/

/-- The I2C bus with its response oracle and write log. -/
structure Bus (E : Type) where
  resp : Nat → Except E Unit
  attempts : Nat
  written : List Nat

/-- One `self.i2c.write(self.address, &[b])` call: consult the oracle, then
either log the byte or fail with the oracle's error, unchanged. -/
def i2c_write {E : Type} (bus : Bus E) (b : Nat) : Except (E × Bus E) (Bus E) :=
  match bus.resp bus.attempts with
  | .ok _ => .ok ⟨bus.resp, bus.attempts + 1, bus.written ++ [b]⟩
  | .error e => .error (e, ⟨bus.resp, bus.attempts + 1, bus.written⟩)

/-- write4bits(data) of the sync/async driver (sync_lcd.rs lines 110-125):
three bus frames realizing one enable pulse — data with enable low, data with
enable high (DisplayControl::DisplayOn is the enable bit), then enable low —
each OR'd with the backlight bit, followed by the 700 us settle delay (delays
are tracked by the act-level model). -/
def write4bitsE {E : Type} (st : LcdState) (bus : Bus E) (data : Nat) :
    Except (E × Bus E) (Bus E) := do
  let bus ← i2c_write bus (data ||| DisplayControl.Off ||| st.backlight_state.asU8)
  let bus ← i2c_write bus (data ||| DisplayControl.DisplayOn ||| st.backlight_state.asU8)
  i2c_write bus (DisplayControl.Off ||| st.backlight_state.asU8)

/-- send(data, mode) of the sync/async driver (sync_lcd.rs lines 127-133):
write4bits of the high nibble frame, then of the low nibble frame. -/
def sendE {E : Type} (st : LcdState) (bus : Bus E) (data rs : Nat) :
    Except (E × Bus E) (Bus E) := do
  let bus ← write4bitsE st bus (send_high data ||| rs)
  write4bitsE st bus (send_low data ||| rs)

/-- command(data) = send(data, Mode::Cmd) (sync_lcd.rs lines 135-137). -/
def commandE {E : Type} (st : LcdState) (bus : Bus E) (data : Nat) :
    Except (E × Bus E) (Bus E) :=
  sendE st bus data Mode.Cmd

/-- backlight(backlight) of the sync/async driver (sync_lcd.rs lines 139-145):
store the new state first, then perform the single raw write
`DisplayControl::Off | backlight`.  The updated driver state is returned in
both the success and the failure case, mirroring mutation through
`&mut self`. -/
def backlightE {E : Type} (st : LcdState) (bus : Bus E) (b : Backlight) :
    LcdState × Except (E × Bus E) (Bus E) :=
  let st' := { st with backlight_state := b }
  (st', i2c_write bus (DisplayControl.Off ||| b.asU8))

/-- update_function_set (sync_lcd.rs lines 204-212). -/
def update_function_setE {E : Type} (st : LcdState) (bus : Bus E) :
    Except (E × Bus E) (Bus E) :=
  commandE st bus (Mode.FunctionSet ||| st.font_mode.asU8 ||| lines_bit st.rows)

/-- update_display_control (sync_lcd.rs lines 177-189). -/
def update_display_controlE {E : Type} (st : LcdState) (bus : Bus E) :
    Except (E × Bus E) (Bus E) :=
  commandE st bus (Mode.DisplayCtrl ||| display_ctrl st.cursor_on st.cursor_blink)

/-- return_home (sync_lcd.rs lines 163-167). -/
def return_homeE {E : Type} (st : LcdState) (bus : Bus E) :
    Except (E × Bus E) (Bus E) :=
  commandE st bus Commands.ReturnHome

/-- init of the sync/async driver (sync_lcd.rs lines 76-108, async_lcd.rs
lines 72-102), bus writes in source order: the backlight write, the three
forced 8-bit-mode nibble transfers, the 4-bit-mode nibble transfer, then the
full-byte commands (function set, display control, clear, entry mode, return
home).  On success the driver value is returned; any bus error aborts the
whole sequence. -/
def initE {E : Type} (st : LcdState) (bus : Bus E) :
    Except (E × Bus E) (LcdState × Bus E) := do
  let p := backlightE st bus st.backlight_state
  let st := p.1
  let bus ← p.2
  let mode_8bit := Mode.FunctionSet ||| BitMode.Bit8
  let bus ← write4bitsE st bus mode_8bit
  let bus ← write4bitsE st bus mode_8bit
  let bus ← write4bitsE st bus mode_8bit
  let mode_4bit := Mode.FunctionSet ||| BitMode.Bit4
  let bus ← write4bitsE st bus mode_4bit
  let bus ← update_function_setE st bus
  let bus ← update_display_controlE st bus
  let bus ← commandE st bus (Mode.Cmd ||| Commands.Clear)
  let bus ← commandE st bus (Mode.EntrySet ||| CursorMoveDir.Left ||| DisplayShift.Decrement)
  let bus ← return_homeE st bus
  pure (st, bus)

/-- write_str(data) of the sync/async driver (sync_lcd.rs lines 148-153;
lib.rs lines 211-216 is the identical loop): for each character, send its
code point truncated to u8 (`c as u8`, i.e. mod 256) tagged Mode::Data. -/
def write_strE {E : Type} (st : LcdState) (bus : Bus E) :
    List Nat → Except (E × Bus E) (Bus E)
  | [] => .ok bus
  | c :: cs => do
    let bus ← sendE st bus (c % 256) Mode.Data
    write_strE st bus cs

/-- An oracle that accepts every write. -/
def okResp (E : Type) : Nat → Except E Unit := fun _ => .ok ()

/-- A fresh bus whose oracle accepts every write. -/
def allOk (E : Type) : Bus E := ⟨okResp E, 0, []⟩

/-- An oracle that fails exactly the k-th write attempt with error e. -/
def failAt {E : Type} (k : Nat) (e : E) : Nat → Except E Unit :=
  fun n => if n = k then .error e else .ok ()

/-- The three bus frames of one write4bits call, as logged on success. -/
def write4bitsFrames (bl : Backlight) (data : Nat) : List Nat :=
  [data ||| DisplayControl.Off ||| bl.asU8,
   data ||| DisplayControl.DisplayOn ||| bl.asU8,
   DisplayControl.Off ||| bl.asU8]

/-- The six bus frames of one send call, as logged on success. -/
def sendFrames (bl : Backlight) (data rs : Nat) : List Nat :=
  write4bitsFrames bl (send_high data ||| rs) ++ write4bitsFrames bl (send_low data ||| rs)

/-! ## Theorems -/

set_option maxRecDepth 4000 in
/-- C1: For every byte b and register-select mode, send produces exactly two
nibble transfers, the first carrying the high nibble of b and the second the
low nibble, such that reassembling the nibble bits of the two transfers
yields b again. -/
theorem send_two_transfers_reassemble :
    ∀ b < 256, ∀ rs ≤ 1,
      (sendTransfers b rs).length = 2 ∧
      ((sendTransfers b rs).getD 0 0) &&& 0xf0 = b / 16 * 16 ∧
      ((sendTransfers b rs).getD 1 0) &&& 0xf0 = b % 16 * 16 ∧
      reassemble ((sendTransfers b rs).getD 0 0) ((sendTransfers b rs).getD 1 0) = b := by
  decide

/-- Witness for C1 at the byte 0xA7 in data mode. -/
theorem send_two_transfers_reassemble_witness :
    (sendTransfers 0xA7 1).length = 2 ∧
    ((sendTransfers 0xA7 1).getD 0 0) &&& 0xf0 = 0xA7 / 16 * 16 ∧
    ((sendTransfers 0xA7 1).getD 1 0) &&& 0xf0 = 0xA7 % 16 * 16 ∧
    reassemble ((sendTransfers 0xA7 1).getD 0 0) ((sendTransfers 0xA7 1).getD 1 0) = 0xA7 :=
  send_two_transfers_reassemble 0xA7 (by decide) 1 (by decide)

/-- C10: set_cursor computes its DDRAM address as row * 0x40 + col in 8-bit
unsigned arithmetic; the value is exact whenever row * 64 + col < 256 and is
reduced modulo 256 (hence differs from row * 64 + col) otherwise. -/
theorem set_cursor_shift_mod256 (row col : Nat) (_hr : row < 256) (_hc : col < 256) :
    set_cursor_shift row col = (row * 64 + col) % 256 ∧
    (row * 64 + col < 256 → set_cursor_shift row col = row * 64 + col) ∧
    (256 ≤ row * 64 + col → set_cursor_shift row col ≠ row * 64 + col) := by
  refine ⟨rfl, fun h => Nat.mod_eq_of_lt h, fun h => ?_⟩
  have hlt : (row * 64 + col) % 256 < 256 := Nat.mod_lt _ (by omega)
  unfold set_cursor_shift
  omega

/-- Witness for C10 at (row, col) = (4, 0), where row * 64 + col = 256
overflows the u8. -/
theorem set_cursor_shift_mod256_witness :
    set_cursor_shift 4 0 = (4 * 64 + 0) % 256 ∧
    (4 * 64 + 0 < 256 → set_cursor_shift 4 0 = 4 * 64 + 0) ∧
    (256 ≤ 4 * 64 + 0 → set_cursor_shift 4 0 ≠ 4 * 64 + 0) :=
  set_cursor_shift_mod256 4 0 (by decide) (by decide)

/-- C3 counterexample: set_cursor(2, 0) computes the address 2 * 0x40 = 0x80
(mod 256), not 0x10; no 16x4-specific offset table exists in the code. -/
theorem set_cursor_2_0_not_x10 :
    set_cursor_shift 2 0 = 0x80 ∧ set_cursor_shift 2 0 ≠ 0x10 := by
  decide

/-- C3 amended: set_cursor(2, 0) resolves to address 0x80 on every
configuration (the arithmetic depends on no geometry), which is neither 0x10
nor the 0x14 of the alleged other table; the full instruction byte sent is
Mode::DDRAMAddr OR 0x80 = 0x80. -/
theorem set_cursor_2_0_addr_x80 :
    set_cursor_shift 2 0 = 0x80 ∧
    set_cursor_shift 2 0 ≠ 0x10 ∧
    set_cursor_shift 2 0 ≠ 0x14 ∧
    set_cursorActs 2 0 = [Act.xfer 0x80 Mode.Cmd] := by
  decide

/-- C4 counterexample: the legacy set_cursor(1, 5) performs a return-home
followed by 45 shift-cursor commands (row stride 40 decimal) and never sends
the instruction byte 0xC5. -/
theorem legacy_set_cursor_1_5_no_xC5 :
    legacy_set_cursorActs 1 5 =
      [Act.xfer Commands.ReturnHome Mode.Cmd, Act.dms 2]
        ++ List.replicate 45 (Act.xfer Commands.ShiftCursor Mode.Cmd) ∧
    (∀ a ∈ legacy_set_cursorActs 1 5, a ≠ Act.xfer 0xC5 Mode.Cmd) := by
  decide

/-- C4 amended: in the sync and async drivers set_cursor(1, 5) resolves to
DDRAM address 0x45 and is sent as the single instruction byte
0x80 OR 0x45 = 0xC5; the legacy lib.rs driver instead returns home and issues
45 shift-cursor instructions and never sends 0xC5. -/
theorem set_cursor_1_5_sends_xC5 :
    set_cursor_shift 1 5 = 0x45 ∧
    set_cursorActs 1 5 = [Act.xfer 0xC5 Mode.Cmd] ∧
    legacy_set_cursor_shift 1 5 = 45 ∧
    (∀ a ∈ legacy_set_cursorActs 1 5, a ≠ Act.xfer 0xC5 Mode.Cmd) := by
  decide

/-- C7 counterexample: the legacy init path sends the entry-mode instruction
as the byte 0x04, an entry-mode-class byte whose cursor-move-direction bit
(0x02, the left-to-right bit) is clear, so that send does not encode
left-to-right cursor movement. -/
theorem legacy_entry_mode_not_left_to_right :
    Act.xfer 0x04 Mode.Cmd ∈ legacy_initActs ⟨0x27, 2, Backlight.On, false, false⟩ ∧
    isEntryXfer (Act.xfer 0x04 Mode.Cmd) = true ∧
    0x04 &&& CursorMoveDir.Left = 0 ∧
    0x04 ≠ Mode.EntrySet ||| CursorMoveDir.Left ||| DisplayShift.Decrement := by
  decide

/-- The lines bit is 0x00 or 0x08. -/
theorem lines_bit_cases (r : Nat) : lines_bit r = 0x00 ∨ lines_bit r = 0x08 := by
  unfold lines_bit
  split <;> simp

/-- Bounds for the display-control instruction byte. -/
theorem display_ctrl_bounds (x y : Bool) :
    0x08 ≤ Mode.DisplayCtrl ||| display_ctrl x y ∧
    Mode.DisplayCtrl ||| display_ctrl x y < 0x10 := by
  cases x <;> cases y <;> decide

/-- Bounds for the function-set instruction byte. -/
theorem function_set_bounds (f : Font) (r : Nat) :
    0x20 ≤ Mode.FunctionSet ||| f.asU8 ||| lines_bit r ∧
    Mode.FunctionSet ||| f.asU8 ||| lines_bit r < 0x30 := by
  rcases lines_bit_cases r with h | h <;> rw [h] <;> cases f <;> decide

/-- C6: for every stored state and every boolean or font argument, cursor_on,
cursor_blink and font_mode each issue exactly one instruction byte — a
display-control byte for the cursor mutators, a function-set byte for the
font mutator — as a single two-nibble byte transfer, and never re-issue any
single-nibble handshake transfer. -/
theorem mutators_single_control_byte (st : LcdState) (b : Bool) (f : Font) :
    (∃ d, cursor_onActs st b = [Act.xfer d Mode.Cmd] ∧ 0x08 ≤ d ∧ d < 0x10) ∧
    (∃ d, cursor_blinkActs st b = [Act.xfer d Mode.Cmd] ∧ 0x08 ≤ d ∧ d < 0x10) ∧
    (∃ d, font_modeActs st f = [Act.xfer d Mode.Cmd] ∧ 0x20 ≤ d ∧ d < 0x30) ∧
    (cursor_onActs st b).countP isNib = 0 ∧
    (cursor_blinkActs st b).countP isNib = 0 ∧
    (font_modeActs st f).countP isNib = 0 := by
  refine ⟨⟨Mode.DisplayCtrl ||| display_ctrl b st.cursor_blink, rfl,
            (display_ctrl_bounds b st.cursor_blink).1, (display_ctrl_bounds b st.cursor_blink).2⟩,
          ⟨Mode.DisplayCtrl ||| display_ctrl st.cursor_on b, rfl,
            (display_ctrl_bounds st.cursor_on b).1, (display_ctrl_bounds st.cursor_on b).2⟩,
          ⟨Mode.FunctionSet ||| f.asU8 ||| lines_bit st.rows, rfl,
            (function_set_bounds f st.rows).1, (function_set_bounds f st.rows).2⟩,
          ?_, ?_, ?_⟩ <;>
    simp [cursor_onActs, cursor_blinkActs, font_modeActs, update_display_controlActs,
      update_function_setActs, commandActs, sendActs, isNib]

/-- C2: for every configuration, init issues the function-set instruction with
the 8-bit-mode flag exactly three times as single nibble transfers, and only
afterwards issues the function-set instruction with the 4-bit-mode flag
exactly once, before any full-byte command; this holds both for the sync and
async init and for the legacy lib.rs init. -/
theorem init_three_8bit_then_one_4bit (st : LcdState) (stL : LegacyState) :
    (∃ pre post,
      initActs st = pre ++ [Act.nib (Mode.FunctionSet ||| BitMode.Bit4)] ++ post ∧
      pre.countP isNib8 = 3 ∧ pre.countP isNib4 = 0 ∧ pre.countP isXfer = 0 ∧
      post.countP isNib = 0) ∧
    (∃ pre post,
      legacy_initActs stL = pre ++ [Act.nib (Mode.FunctionSet ||| BitMode.Bit4)] ++ post ∧
      pre.countP isNib8 = 3 ∧ pre.countP isNib4 = 0 ∧ pre.countP isXfer = 0 ∧
      post.countP isNib = 0) := by
  constructor
  · refine ⟨[Act.dms 80, Act.raw (DisplayControl.Off ||| st.backlight_state.asU8), Act.dms 1,
        Act.nib (Mode.FunctionSet ||| BitMode.Bit8), Act.dms 5,
        Act.nib (Mode.FunctionSet ||| BitMode.Bit8), Act.dms 5,
        Act.nib (Mode.FunctionSet ||| BitMode.Bit8), Act.dms 5],
      update_function_setActs st ++ update_display_controlActs st
        ++ commandActs (Mode.Cmd ||| Commands.Clear) ++ [Act.dms 2]
        ++ commandActs (Mode.EntrySet ||| CursorMoveDir.Left ||| DisplayShift.Decrement)
        ++ return_homeActs, ?_, ?_, ?_, ?_, ?_⟩
    · simp [initActs, backlightActs]
    · simp [List.countP_cons, List.countP_nil, isNib8]
    · simp [List.countP_cons, List.countP_nil, isNib4]
      decide
    · simp [List.countP_cons, List.countP_nil, isXfer]
    · simp [update_function_setActs, update_display_controlActs, commandActs, sendActs,
        return_homeActs, List.countP_append, List.countP_cons, List.countP_nil, isNib]
  · refine ⟨[Act.dms 80,
        Act.nib (Mode.FunctionSet ||| BitMode.Bit8), Act.dms 5,
        Act.nib (Mode.FunctionSet ||| BitMode.Bit8), Act.dms 5,
        Act.nib (Mode.FunctionSet ||| BitMode.Bit8), Act.dms 5],
      commandActs (Mode.FunctionSet ||| lines_bit stL.rows)
        ++ commandActs (Mode.DisplayCtrl ||| display_ctrl stL.cursor_on stL.cursor_blink)
        ++ commandActs (Mode.Cmd ||| Commands.Clear)
        ++ commandActs 0x04
        ++ legacy_backlightActs stL.backlight_state, ?_, ?_, ?_, ?_, ?_⟩
    · simp [legacy_initActs]
    · simp [List.countP_cons, List.countP_nil, isNib8]
    · simp [List.countP_cons, List.countP_nil, isNib4]
      decide
    · simp [List.countP_cons, List.countP_nil, isXfer]
    · simp [commandActs, sendActs, legacy_backlightActs,
        List.countP_append, List.countP_cons, List.countP_nil, isNib]

/-- A byte transfer whose instruction byte is at least 0x08 is not an
entry-mode-class transfer. -/
theorem isEntryXfer_of_ge (d rs : Nat) (h : 0x08 ≤ d) :
    isEntryXfer (Act.xfer d rs) = false := by
  have h' : ¬ (d < 0x08) := by omega
  simp [isEntryXfer, h']

/-- C7 amended: the sync and async init send the entry-mode instruction once,
as the byte EntrySet OR CursorMoveDir::Left OR DisplayShift::Decrement =
0x06, whose cursor-move-direction (left-to-right) bit 0x02 is set and whose
display-shift-on-write bit 0x01 is clear; the legacy lib.rs init instead
sends the entry-mode byte 0x04, whose display-shift-on-write bit is likewise
clear but whose left-to-right bit is also clear. -/
theorem entry_mode_byte_core_vs_legacy (st : LcdState) (stL : LegacyState) :
    (initActs st).countP isEntryXfer = 1 ∧
    Act.xfer (Mode.EntrySet ||| CursorMoveDir.Left ||| DisplayShift.Decrement) Mode.Cmd
      ∈ initActs st ∧
    Mode.EntrySet ||| CursorMoveDir.Left ||| DisplayShift.Decrement = 0x06 ∧
    0x06 &&& CursorMoveDir.Left = CursorMoveDir.Left ∧
    0x06 &&& 0x01 = 0 ∧
    (legacy_initActs stL).countP isEntryXfer = 1 ∧
    Act.xfer 0x04 Mode.Cmd ∈ legacy_initActs stL ∧
    0x04 &&& CursorMoveDir.Left = 0 ∧
    0x04 &&& 0x01 = 0 := by
  have hcore : (initActs st).countP isEntryXfer = 1 ∧
      Act.xfer (Mode.EntrySet ||| CursorMoveDir.Left ||| DisplayShift.Decrement) Mode.Cmd
        ∈ initActs st := by
    obtain ⟨a, r, bl, co, cb, f⟩ := st
    rcases lines_bit_cases r with h | h <;> cases bl <;> cases co <;> cases cb <;> cases f <;>
      simp [initActs, backlightActs, update_function_setActs, update_display_controlActs,
        commandActs, sendActs, return_homeActs, h, isEntryXfer, display_ctrl,
        Backlight.asU8, Font.asU8] <;> decide
  have hleg : (legacy_initActs stL).countP isEntryXfer = 1 ∧
      Act.xfer 0x04 Mode.Cmd ∈ legacy_initActs stL := by
    obtain ⟨aL, rL, blL, coL, cbL⟩ := stL
    rcases lines_bit_cases rL with h | h <;> cases blL <;> cases coL <;> cases cbL <;>
      simp [legacy_initActs, legacy_backlightActs, commandActs, sendActs, h, isEntryXfer,
        display_ctrl, Backlight.asU8] <;> decide
  exact ⟨hcore.1, hcore.2, by decide, by decide, by decide, hleg.1, hleg.2,
    by decide, by decide⟩

/-- C5: if the bus write underlying any of the three frames of the second
forced 8-bit-mode nibble transfer fails during init (write attempts 4, 5 and
6, after the backlight write and the three frames of the first transfer),
init returns that bus error unchanged, no further bus write is attempted
(exactly 4 + j writes succeeded and the failing attempt was the last one),
and no initialized driver value is produced. -/
theorem init_error_on_second_8bit_aborts {E : Type} (st : LcdState) (e : E)
    (j : Nat) (hj : j < 3) :
    ∃ bus', initE st ⟨failAt (4 + j) e, 0, []⟩ = .error (e, bus') ∧
      bus'.attempts = 5 + j ∧ bus'.written.length = 4 + j := by
  interval_cases j <;> exact ⟨_, rfl, rfl, rfl⟩

/-- Witness for C5: failure on the first frame of the second 8-bit-mode
transfer, with a concrete configuration and the error value 7. -/
theorem init_error_on_second_8bit_aborts_witness :
    (0 : Nat) < 3 ∧
    ∃ bus', initE ⟨0x27, 2, Backlight.On, false, false, Font.Font5x8⟩
        ⟨failAt (4 + 0) (7 : Nat), 0, []⟩ = .error ((7 : Nat), bus') ∧
      bus'.attempts = 5 + 0 ∧ bus'.written.length = 4 + 0 :=
  ⟨by decide,
   init_error_on_second_8bit_aborts ⟨0x27, 2, Backlight.On, false, false, Font.Font5x8⟩
     7 0 (by decide)⟩

/-- C8: backlight stores the new backlight state before its single bus write,
so the stored flag equals the argument even when the write fails; the
operation is a single raw byte write with no delay, and on success exactly
one byte is appended to the bus log. -/
theorem backlight_updates_state_before_write {E : Type} (st : LcdState)
    (bus : Bus E) (b : Backlight) :
    (backlightE st bus b).1.backlight_state = b ∧
    backlightActs b = [Act.raw (DisplayControl.Off ||| b.asU8)] ∧
    (backlightActs b).countP isDelay = 0 ∧
    (match (backlightE st bus b).2 with
     | .ok bus' => bus'.attempts = bus.attempts + 1 ∧
         bus'.written = bus.written ++ [DisplayControl.Off ||| b.asU8]
     | .error p => p.2.attempts = bus.attempts + 1 ∧ p.2.written = bus.written) := by
  refine ⟨rfl, rfl, by simp [backlightActs, isDelay], ?_⟩
  unfold backlightE i2c_write
  rcases h : bus.resp bus.attempts with e | u <;> simp [h]

/-- Against the all-ok oracle, one i2c write appends its byte. -/
theorem i2c_write_okResp {E : Type} (k : Nat) (w : List Nat) (b : Nat) :
    i2c_write ⟨okResp E, k, w⟩ b = .ok ⟨okResp E, k + 1, w ++ [b]⟩ := rfl

/-- Against the all-ok oracle, write4bits performs its three frames. -/
theorem write4bitsE_okResp {E : Type} (st : LcdState) (k : Nat) (w : List Nat) (d : Nat) :
    write4bitsE st ⟨okResp E, k, w⟩ d =
      .ok ⟨okResp E, k + 3, w ++ write4bitsFrames st.backlight_state d⟩ := by
  simp [write4bitsE, i2c_write_okResp, write4bitsFrames, List.append_assoc,
    Except.instMonad, Except.bind]

/-- Against the all-ok oracle, send performs its six frames. -/
theorem sendE_okResp {E : Type} (st : LcdState) (k : Nat) (w : List Nat) (d rs : Nat) :
    sendE st ⟨okResp E, k, w⟩ d rs =
      .ok ⟨okResp E, k + 6, w ++ sendFrames st.backlight_state d rs⟩ := by
  simp [sendE, write4bitsE_okResp, sendFrames, List.append_assoc,
    Except.instMonad, Except.bind]

/-- Against the all-ok oracle, write_str performs exactly the six send frames
of each character byte, in character order. -/
theorem write_strE_okResp (E : Type) (st : LcdState) (s : List Nat) :
    ∀ k w, write_strE st ⟨okResp E, k, w⟩ s =
      .ok ⟨okResp E, k + 6 * s.length,
        w ++ s.flatMap (fun c => sendFrames st.backlight_state (c % 256) Mode.Data)⟩ := by
  induction s with
  | nil => intro k w; simp [write_strE]
  | cons c cs ih =>
    intro k w
    simp only [write_strE, sendE_okResp, List.flatMap_cons, Except.instMonad, Except.bind]
    rw [ih]
    have harith : k + 6 + 6 * cs.length = k + 6 * (cs.length + 1) := by ring
    simp [List.append_assoc, harith, Nat.mul_add, Nat.mul_one, List.length_cons]

set_option maxRecDepth 4000 in
/-- Both transfers of a send in data mode carry the register-select data
bit. -/
theorem sendTransfers_data_bit :
    ∀ d < 256, (send_high d ||| Mode.Data) &&& 0x01 = 0x01 ∧
      (send_low d ||| Mode.Data) &&& 0x01 = 0x01 := by
  decide

/-- C9: for every string (list of character code points), write_str sends
exactly one data-tagged byte transfer per character, in order: against an
all-accepting bus the log is precisely the concatenation of the six send
frames of each character's code point truncated to the low 8 bits
(`c as u8`, i.e. mod 256), every transfer carries the data register-select
bit, and a code point above 0xFF (0x100 here) is silently reduced modulo 256
rather than rejected. -/
theorem write_str_one_transfer_per_char {E : Type} (st : LcdState) (s : List Nat) :
    write_strE st (allOk E) s =
      .ok ⟨okResp E, 6 * s.length,
        s.flatMap (fun c => sendFrames st.backlight_state (c % 256) Mode.Data)⟩ ∧
    (∀ c ∈ s, ∀ t ∈ sendTransfers (c % 256) Mode.Data, t &&& 0x01 = 0x01) ∧
    write_strE st (allOk E) [0x100] =
      .ok ⟨okResp E, 6, sendFrames st.backlight_state 0 Mode.Data⟩ := by
  refine ⟨?_, ?_, ?_⟩
  · have h := write_strE_okResp E st s 0 []
    simpa [allOk] using h
  · intro c _hc t ht
    have h := sendTransfers_data_bit (c % 256) (Nat.mod_lt _ (by omega))
    simp [sendTransfers] at ht
    rcases ht with rfl | rfl
    · exact h.1
    · exact h.2
  · have h := write_strE_okResp E st [0x100] 0 []
    simpa [allOk] using h
